import Mathlib

/-
Verification of the session lifecycle manager of playwright-mcp-bypass.

The embedding below is a shallow model of the session/transport/dispatch
layer of the repository:
  - server.ts        : createServerWithTools (callTool), ServerList
  - httpServer.ts    : startHttpServer (session middleware, timers, routes,
                       gracefulShutdown)
  - cli.ts           : setupExitWatchdog, createUserDataDir, startSSEServer

Server instances are modelled by natural-number identifiers handed out by
the factory; the external release of the underlying resource (the wrapped
server.close of the SDK) is modelled by an outcome function
InstanceId -> Except String Unit supplied as a parameter.  JS Map objects
are modelled as association lists with the usual get/set/delete semantics
(set replaces in place, delete removes the unique entry).  Time is
modelled by absolute instants in milliseconds; a pending setTimeout is
modelled by the absolute instant at which it fires.
-/

namespace PlaywrightMcp

/-- JS Map.get on an association list keyed by strings. -/
def mapGet {α : Type} : List (String × α) → String → Option α
  | [], _ => none
  | (k, v) :: rest, key => if k = key then some v else mapGet rest key

/-- JS Map.set: replace the value in place when the key is present,
append a new entry otherwise. -/
def mapSet {α : Type} : List (String × α) → String → α → List (String × α)
  | [], key, value => [(key, value)]
  | (k, v) :: rest, key, value =>
    if k = key then (key, value) :: rest else (k, v) :: mapSet rest key value

/-- JS Map.delete: remove the (unique) entry for the key. -/
def mapDelete {α : Type} : List (String × α) → String → List (String × α)
  | [], _ => []
  | (k, v) :: rest, key => if k = key then rest else (k, v) :: mapDelete rest key

/-- A JS Map never holds two entries with the same key; association lists
reachable by get/set/delete keep their keys pairwise distinct. -/
def KeysUnique {α : Type} (m : List (String × α)) : Prop :=
  (m.map Prod.fst).Nodup

abbrev SessionKey := String

abbrev InstanceId := Nat

/-- server.ts, class ServerList: the private _servers array plus the fresh
identifier supply standing for the asynchronous server factory. -/
structure ServerList where
  servers : List InstanceId
  nextId : Nat
deriving Repr, DecidableEq

/-- server.ts, ServerList.create: await the factory (which yields a fresh
instance), push it onto _servers and return it.  The optional session key
is forwarded to the factory (it only influences the profile directory,
see createUserDataDir). -/
def ServerList.create (sl : ServerList) (_sessionId : Option SessionKey) :
    InstanceId × ServerList :=
  (sl.nextId, { servers := sl.servers ++ [sl.nextId], nextId := sl.nextId + 1 })

/-- server.ts, ServerList.close: indexOf + splice removes the first
occurrence of the server from _servers (a no-op when absent), then
server.close() is awaited unconditionally; its result is the outcome of
the external release. -/
def ServerList.close (outcome : InstanceId → Except String Unit)
    (sl : ServerList) (server : InstanceId) :
    Except String Unit × ServerList :=
  (outcome server, { sl with servers := sl.servers.erase server })

/-- Promise.all over a list of settled release results: resolves with unit
when every promise resolves, rejects with the first rejection otherwise. -/
def promiseAll : List (Except String Unit) → Except String Unit
  | [] => .ok ()
  | .ok () :: rest => promiseAll rest
  | .error e :: _ => .error e

/-- server.ts, ServerList.closeAll: await Promise.all over server.close()
for every registered server.  The _servers array itself is not touched. -/
def ServerList.closeAll (outcome : InstanceId → Except String Unit)
    (sl : ServerList) : Except String Unit × ServerList :=
  (promiseAll (sl.servers.map outcome), sl)

/-- httpServer.ts: const sessionTimeout = 30 * 60 * 1000. -/
def sessionTimeout : Nat := 30 * 60 * 1000

/-- State owned by startHttpServer: the sessions map, the per-key eviction
timers (modelled by the absolute instant at which each pending timer
fires) and the shared ServerList. -/
structure HttpState where
  sessions : List (SessionKey × InstanceId)
  sessionTimers : List (SessionKey × Nat)
  serverList : ServerList
deriving Repr, DecidableEq

/-- The empty ServerList at process start. -/
def emptyServerList : ServerList := { servers := [], nextId := 0 }

/-- The state of a freshly started HTTP server: no sessions, no timers. -/
def httpInit : HttpState :=
  { sessions := [], sessionTimers := [], serverList := emptyServerList }

/-- httpServer.ts, session middleware: ctx.get returns the empty string
for a missing header, and the code reads
  const sessionId = ctx.get(session-id-header) || the string default
so the empty string (absent header) maps to the default key. -/
def resolveSessionKey (headerValue : String) : SessionKey :=
  if headerValue = "" then "default" else headerValue

/-- httpServer.ts, session middleware run as one atomic request (the
sequential semantics, with no interleaved request on the same key):
look the key up in sessions; on a miss, create through the ServerList and
insert the binding; in both branches clear any pending timer for the key
and arm a fresh one sessionTimeout milliseconds from now.  Returns the
resolved server instance together with the new state. -/
def sessionMiddleware (now : Nat) (headerValue : String) (st : HttpState) :
    InstanceId × HttpState :=
  let sessionId := resolveSessionKey headerValue
  let serverAndState :=
    match mapGet st.sessions sessionId with
    | some server => (server, st.sessions, st.serverList)
    | none =>
      let created := st.serverList.create (some sessionId)
      (created.1, mapSet st.sessions sessionId created.1, created.2)
  (serverAndState.1,
   { sessions := serverAndState.2.1,
     sessionTimers := mapSet st.sessionTimers sessionId (now + sessionTimeout),
     serverList := serverAndState.2.2 })

/-- httpServer.ts, the setTimeout callback armed by the middleware: when it
fires, look the key up in sessions; when a server is still bound, close it
through the ServerList and delete the sessions entry; in every case delete
the sessionTimers entry. -/
def sessionTimerFire (outcome : InstanceId → Except String Unit)
    (sessionId : SessionKey) (st : HttpState) : HttpState :=
  match mapGet st.sessions sessionId with
  | some serverToClose =>
    { sessions := mapDelete st.sessions sessionId,
      sessionTimers := mapDelete st.sessionTimers sessionId,
      serverList := (ServerList.close outcome st.serverList serverToClose).2 }
  | none =>
    { st with sessionTimers := mapDelete st.sessionTimers sessionId }

/-- One content item of a tool result (type and text of the MCP content). -/
structure ContentItem where
  type : String
  text : String
deriving Repr, DecidableEq

/-- The result a tool handler resolves with. -/
structure ToolResult where
  content : List ContentItem
  isError : Bool
deriving Repr, DecidableEq

/-- Request-body parameters, an opaque JSON object. -/
abbrev ToolArgs := List (String × String)

/-- JSON schema of the tool input as the openapi route consumes it: the
property names and the required field names. -/
structure InputSchemaModel where
  properties : List String
  required : List String
deriving Repr, DecidableEq

/-- One tool registered on a server instance: its schema (name,
description, input schema) and its handler.  The handler either resolves
with a ToolResult or rejects with an error message. -/
structure RegisteredTool where
  name : String
  description : String
  inputSchema : Option InputSchemaModel
  handleResult : ToolArgs → Except String ToolResult

/-- server.ts, the callTool method attached to the server: find the tool
by name and throw a not-found error when absent; otherwise await the
handler; a result marked isError is turned into a thrown error carrying
the first text content (or an execution-failed fallback when that text is
missing or empty); a handler rejection is rethrown with its message. -/
def callTool (tools : List RegisteredTool) (name : String) (args : ToolArgs) :
    Except String ToolResult :=
  match tools.find? (fun tool => tool.name == name) with
  | none => .error ("Tool \"" ++ name ++ "\" not found")
  | some tool =>
    match tool.handleResult args with
    | .error e => .error e
    | .ok result =>
      if result.isError then
        .error
          (match result.content.find? (fun c => c.type == "text") with
           | some c =>
             if c.text = "" then "Tool \"" ++ name ++ "\" execution failed"
             else c.text
           | none => "Tool \"" ++ name ++ "\" execution failed")
      else .ok result

/-- The HTTP response the tool routes produce: status code plus the JSON
body with success flag and result or error. -/
structure Envelope where
  status : Nat
  success : Bool
  result : Option ToolResult
  error : Option String
deriving Repr, DecidableEq

/-- httpServer.ts, router.post for /tools/:toolName: await callTool; on
resolution reply 200 with success true and the result; on rejection reply
500 with success false and the error message. -/
def postToolRoute (tools : List RegisteredTool) (toolName : String)
    (params : ToolArgs) : Envelope :=
  match callTool tools toolName params with
  | .ok result =>
    { status := 200, success := true, result := some result, error := none }
  | .error e =>
    { status := 500, success := false, result := none, error := some e }

/-- A full POST /tools/:toolName request: the session middleware runs
first (resolving the key, performing getOrCreate and re-arming the
eviction timer), then the route handler dispatches the tool against the
registered tools of the resolved instance (every instance produced by the
factory registers the same tool list). -/
def servePostTool (tools : List RegisteredTool) (now : Nat)
    (headerValue : String) (toolName : String) (params : ToolArgs)
    (st : HttpState) : Envelope × HttpState :=
  let afterMiddleware := sessionMiddleware now headerValue st
  (postToolRoute tools toolName params, afterMiddleware.2)

/-- One path item of the generated OpenAPI document. -/
structure PathItem where
  path : String
  method : String
  summary : String
  operationId : String
  hasRequestBody : Bool
  requestBodyRequired : Bool
deriving Repr, DecidableEq

/-- httpServer.ts, the openapi route body for one tool schema: GET for
browser_tab_list and POST otherwise; the summary falls back to an
execute line when the description is empty; a requestBody is attached to
POST operations whose input schema has properties or required fields, and
it is marked required exactly when the schema has required fields. -/
def buildPathItem (tool : RegisteredTool) : PathItem :=
  let isGetOperation := tool.name == "browser_tab_list"
  let hasProperties :=
    match tool.inputSchema with
    | none => false
    | some s => !s.properties.isEmpty
  let isRequired :=
    match tool.inputSchema with
    | none => false
    | some s => !s.required.isEmpty
  { path := "/tools/" ++ tool.name,
    method := if isGetOperation then "get" else "post",
    summary :=
      if tool.description = "" then "Execute " ++ tool.name
      else tool.description,
    operationId := tool.name,
    hasRequestBody := !isGetOperation && (hasProperties || isRequired),
    requestBodyRequired := !isGetOperation && (hasProperties || isRequired) && isRequired }

/-- httpServer.ts, router.get for /openapi.json: read the registered tool
schemas off the (already resolved) server instance and build the path
listing.  The handler performs no mutation of the sessions map, the
timers or the ServerList. -/
def openapiRoute (tools : List RegisteredTool) (st : HttpState) :
    List PathItem × HttpState :=
  (tools.map buildPathItem, st)

/-- A full GET /openapi.json request: the shared session middleware runs
first, then the openapi handler. -/
def serveOpenapi (tools : List RegisteredTool) (now : Nat)
    (headerValue : String) (st : HttpState) : List PathItem × HttpState :=
  let afterMiddleware := sessionMiddleware now headerValue st
  openapiRoute tools afterMiddleware.2

/-
Interleaving model of the session middleware check-then-create section
(httpServer.ts lines with sessions.get / serverList.create / sessions.set).
A request on key k runs two atomic phases separated by the await on
serverList.create:
  - notStarted: evaluate sessions.get(k); a hit finishes the request with
    the bound instance (reuse); a miss suspends at the await;
  - creating: the factory resolves; the fresh instance is pushed onto
    _servers and sessions.set(k, server) runs; the request finishes with
    the fresh instance (created).
Between the two phases any other request may run: nothing in the code
serializes the section per key.
-/

/-- Phase of one in-flight middleware execution. -/
inductive ProcPhase
  | notStarted
  | creating
  | done (server : InstanceId) (created : Bool)
deriving Repr, DecidableEq

/-- One in-flight request of the race model: its session key and phase. -/
structure RaceProc where
  key : SessionKey
  phase : ProcPhase
deriving Repr, DecidableEq

/-- Shared state of the race model: the sessions map, the ServerList and
the in-flight requests. -/
structure RaceState where
  sessions : List (SessionKey × InstanceId)
  serverList : ServerList
  procs : List RaceProc
deriving Repr, DecidableEq

/-- Run one atomic phase of request i (a no-op on an out-of-range index or
a finished request). -/
def raceStep (st : RaceState) (i : Nat) : RaceState :=
  match st.procs.get? i with
  | none => st
  | some p =>
    match p.phase with
    | .done _ _ => st
    | .notStarted =>
      match mapGet st.sessions p.key with
      | some server =>
        { st with procs := st.procs.set i { p with phase := .done server false } }
      | none =>
        { st with procs := st.procs.set i { p with phase := .creating } }
    | .creating =>
      let created := st.serverList.create (some p.key)
      { sessions := mapSet st.sessions p.key created.1,
        serverList := created.2,
        procs := st.procs.set i { p with phase := .done created.1 true } }

/-- Run the phases picked by a schedule, left to right. -/
def raceRun (st : RaceState) : List Nat → RaceState
  | [] => st
  | i :: rest => raceRun (raceStep st i) rest

/-- Initial race state: an empty registry and n concurrent requests, all
carrying the same session key. -/
def raceInit (n : Nat) (k : SessionKey) : RaceState :=
  { sessions := [],
    serverList := emptyServerList,
    procs := List.replicate n { key := k, phase := .notStarted } }

/-
SSE transport (cli.ts, startSSEServer).  sessions maps the
transport-generated sessionId to the server instance bound on connection
accept; the fresh sessionId generated by the transport on GET is a
parameter of the model.
-/

/-- One inbound HTTP request of the SSE endpoint. -/
inductive SSERequest
  | get
  | post (sessionId : Option String)
  | other
deriving Repr, DecidableEq

/-- Response of the SSE endpoint. -/
inductive SSEResponse
  | statusText (code : Nat) (body : String)
  | handled
  | accepted (sessionId : SessionKey)
deriving Repr, DecidableEq

/-- State of the SSE endpoint: bound sessions and the shared ServerList. -/
structure SSEState where
  sessions : List (SessionKey × InstanceId)
  serverList : ServerList
deriving Repr, DecidableEq

/-- cli.ts, startSSEServer request handler: a POST without sessionId is a
400; a POST whose sessionId has no bound transport is a 404 with body
Session not found and touches nothing; a POST on a bound session is
delegated to the transport; a GET accepts the connection, binds the fresh
transport sessionId and creates a server for it through the ServerList;
any other method is a 405. -/
def sseHandleRequest (freshSid : SessionKey) (req : SSERequest)
    (st : SSEState) : SSEResponse × SSEState :=
  match req with
  | .post none => (.statusText 400 "Missing sessionId", st)
  | .post (some sid) =>
    match mapGet st.sessions sid with
    | none => (.statusText 404 "Session not found", st)
    | some _ => (.handled, st)
  | .get =>
    let created := st.serverList.create (some freshSid)
    (.accepted freshSid,
     { sessions := mapSet st.sessions freshSid created.1,
       serverList := created.2 })
  | .other => (.statusText 405 "Method not allowed", st)

/-- cli.ts, the close listener installed on the GET response stream: the
captured sessionId is deleted from sessions and the captured server is
released through ServerList.close (a rejection is caught and logged). -/
def sseHandleClose (outcome : InstanceId → Except String Unit)
    (sid : SessionKey) (server : InstanceId) (st : SSEState) : SSEState :=
  { sessions := mapDelete st.sessions sid,
    serverList := (ServerList.close outcome st.serverList server).2 }

/-
Shutdown (cli.ts setupExitWatchdog, httpServer.ts gracefulShutdown).
-/

/-- cli.ts, setupExitWatchdog: the force-exit timer is armed with 15000
milliseconds; httpServer.ts uses the same bound for its forced exit. -/
def forceExitTimeoutMs : Nat := 15000

/-- cli.ts, the events the watchdog handler is installed on. -/
def watchdogTriggers : List String := ["stdin-close", "SIGINT", "SIGTERM"]

/-- What one run of the watchdog handler does: it first arms the
force-exit timer, then awaits serverList.closeAll(), which starts
server.close() on every registered server. -/
structure ExitTrace where
  forceExitAfterMs : Nat
  closedServers : List InstanceId
  closeAllResult : Except String Unit
deriving Repr

/-- cli.ts, handleExit: setTimeout(process.exit, 15000) first, then await
serverList.closeAll(). -/
def handleExit (outcome : InstanceId → Except String Unit)
    (sl : ServerList) : ExitTrace :=
  { forceExitAfterMs := forceExitTimeoutMs,
    closedServers := sl.servers,
    closeAllResult := (ServerList.closeAll outcome sl).1 }

/-- Instant at which the process exits after the handler runs, given how
long the graceful closeAll takes (none when it hangs or rejects): the
graceful path exits on completion, and the force timer armed before the
await exits at the bound otherwise. -/
def exitTimeMs (gracefulMs : Option Nat) : Nat :=
  match gracefulMs with
  | some d => min d forceExitTimeoutMs
  | none => forceExitTimeoutMs

/-- httpServer.ts, gracefulShutdown (the session cleanup part): for every
entry of the sessions map, serverList.close(server) is started and the
timer of that key is cleared and deleted; afterwards sessions.clear()
empties the map.  The force timer uses the same 15000 millisecond bound. -/
def gracefulShutdown (outcome : InstanceId → Except String Unit)
    (st : HttpState) : HttpState :=
  { sessions := [],
    sessionTimers :=
      st.sessions.foldl (fun ts kv => mapDelete ts kv.1) st.sessionTimers,
    serverList :=
      st.sessions.foldl
        (fun sl kv => (ServerList.close outcome sl kv.2).2) st.serverList }

/-
Profile directories (cli.ts createUserDataDir and serverFactory).
-/

/-- cli.ts, createUserDataDir: the directory name appends the sessionId
only when it is provided, non-empty and different from default (the JS
condition sessionId && sessionId !== default, where undefined and the
empty string are falsy). -/
def profileDirName (browserName : String) (sessionId : Option String) :
    String :=
  let profileSuffix :=
    match sessionId with
    | some sid => if sid ≠ "" ∧ sid ≠ "default" then "-" ++ sid else ""
    | none => ""
  "mcp-" ++ browserName ++ "-profile" ++ profileSuffix

/-- cli.ts, createUserDataDir: the directory lives under
cacheDirectory/ms-playwright (the cache directory is resolved from the
platform and environment, a parameter here). -/
def createUserDataDir (cacheDirectory : String) (browserName : String)
    (sessionId : Option String) : String :=
  cacheDirectory ++ "/ms-playwright/" ++ profileDirName browserName sessionId

/-- cli.ts, serverFactory: a user data directory configured on the CLI is
used as-is for every session; otherwise a per-session directory is
created. -/
def effectiveUserDataDir (userDataDirOption : Option String)
    (cacheDirectory : String) (browserName : String)
    (sessionId : Option String) : String :=
  match userDataDirOption with
  | some dir => dir
  | none => createUserDataDir cacheDirectory browserName sessionId

/-- A sample registered tool for concrete witnesses: the navigate tool
with its required url parameter. -/
def browserNavigateTool : RegisteredTool :=
  { name := "browser_navigate",
    description := "Navigate to a URL",
    inputSchema := some { properties := ["url"], required := ["url"] },
    handleResult := fun _ =>
      .ok { content := [{ type := "text", text := "Navigated" }], isError := false } }

/-- A concrete HTTP adapter state for witnesses: one live session bound to
instance 3, one pending timer, the instance registered in the ServerList. -/
def httpStateExample : HttpState :=
  { sessions := [("s", 3)],
    sessionTimers := [("s", 99)],
    serverList := { servers := [3], nextId := 4 } }

/-- A concrete SSE adapter state for witnesses: one bound session. -/
def sseStateExample : SSEState :=
  { sessions := [("a", 3)],
    serverList := { servers := [3], nextId := 4 } }

/-
Helper lemmas about the Map model and Promise.all.
-/

/-- Looking a key up right after setting it yields the value just set. -/
theorem mapGet_mapSet_self {α : Type} (m : List (String × α)) (k : String)
    (v : α) : mapGet (mapSet m k v) k = some v := by
  induction m with
  | nil => simp [mapSet, mapGet]
  | cons hd tl ih =>
    obtain ⟨k1, v1⟩ := hd
    by_cases h : k1 = k
    · simp [mapSet, mapGet, h]
    · simp [mapSet, mapGet, h, ih]

/-- A key that occurs nowhere in the list is not found. -/
theorem mapGet_eq_none_of_not_mem {α : Type} (m : List (String × α))
    (k : String) (h : k ∉ m.map Prod.fst) : mapGet m k = none := by
  induction m with
  | nil => rfl
  | cons hd tl ih =>
    obtain ⟨k1, v1⟩ := hd
    simp only [List.map_cons, List.mem_cons] at h
    push_neg at h
    have hne : ¬ k1 = k := fun e => h.1 e.symm
    simp [mapGet, hne, ih h.2]

/-- Deleting a key from a map with pairwise distinct keys makes lookups of
that key fail. -/
theorem mapGet_mapDelete_self {α : Type} (m : List (String × α)) (k : String)
    (h : KeysUnique m) : mapGet (mapDelete m k) k = none := by
  induction m with
  | nil => rfl
  | cons hd tl ih =>
    obtain ⟨k1, v1⟩ := hd
    simp only [KeysUnique, List.map_cons, List.nodup_cons] at h
    by_cases hk : k1 = k
    · subst hk
      simp only [mapDelete, if_pos rfl]
      exact mapGet_eq_none_of_not_mem tl k1 h.1
    · simp only [mapDelete, if_neg hk, mapGet, if_neg hk]
      exact ih h.2

/-- Promise.all resolves exactly when every promise in the list resolves. -/
theorem promiseAll_ok_iff (rs : List (Except String Unit)) :
    promiseAll rs = .ok () ↔ ∀ r ∈ rs, r = .ok () := by
  induction rs with
  | nil => simp [promiseAll]
  | cons r rest ih =>
    cases r with
    | ok u =>
      cases u
      simp [promiseAll, ih]
    | error e => simp [promiseAll]

/-- closeAll resolves exactly when the release of every registered server
resolves (Promise.all over server.close()). -/
theorem closeAll_ok_iff (outcome : InstanceId → Except String Unit)
    (sl : ServerList) :
    (ServerList.closeAll outcome sl).1 = .ok () ↔
      ∀ i ∈ sl.servers, outcome i = .ok () := by
  rw [show (ServerList.closeAll outcome sl).1
        = promiseAll (sl.servers.map outcome) from rfl,
      promiseAll_ok_iff]
  constructor
  · intro h i hi
    exact h (outcome i) (List.mem_map.mpr ⟨i, hi, rfl⟩)
  · intro h r hr
    obtain ⟨i, hi, heq⟩ := List.mem_map.mp hr
    exact heq ▸ h i hi

/-
Claim theorems.
-/

/-- Claim C1: two concurrent getOrCreate executions on the same key,
interleaved at the await on serverList.create, both miss the
sessions.get check and both create: the final ServerList holds two
instances for the single key k, the second sessions.set overwrites the
first binding, and both requests report a created (not reused) instance.
This contradicts the claimed at-most-one-instance-per-key atomic section:
the schedule check(0), check(1), resume(0), resume(1) is realizable on
the single-threaded event loop. -/
theorem getOrCreate_race_creates_two_instances :
    (raceRun (raceInit 2 "k") [0, 1, 0, 1]).serverList.servers = [0, 1] ∧
    mapGet (raceRun (raceInit 2 "k") [0, 1, 0, 1]).sessions "k" = some 1 ∧
    (raceRun (raceInit 2 "k") [0, 1, 0, 1]).procs =
      [{ key := "k", phase := .done 0 true },
       { key := "k", phase := .done 1 true }] := by
  decide

/-- Under a schedule that does not interleave the two executions, the
section behaves as specified: one creation, one reuse, a single instance. -/
theorem getOrCreate_sequential_single_instance :
    (raceRun (raceInit 2 "k") [0, 0, 1, 1]).serverList.servers = [0] ∧
    (raceRun (raceInit 2 "k") [0, 0, 1, 1]).procs =
      [{ key := "k", phase := .done 0 true },
       { key := "k", phase := .done 0 false }] := by
  decide

/-- Claim C2 counterexample: closeAll on a registry holding instances 0
and 1, where the release of instance 0 rejects, leaves the _servers list
untouched (the registry is not empty afterwards) and itself rejects with
the failing release error (Promise.all aborts on the first rejection);
even with no failing release the list is still not emptied. -/
theorem closeAll_claim_fails_on_code :
    (ServerList.closeAll
        (fun i => if i = 0 then .error "close failed" else .ok ())
        { servers := [0, 1], nextId := 2 }).2.servers = [0, 1] ∧
    (ServerList.closeAll
        (fun i => if i = 0 then .error "close failed" else .ok ())
        { servers := [0, 1], nextId := 2 }).1 = .error "close failed" ∧
    (ServerList.closeAll (fun _ => .ok ())
        { servers := [0, 1], nextId := 2 }).2.servers ≠ [] := by
  exact ⟨rfl, rfl, by decide⟩

/-- Claim C2 as amended: closeAll awaits Promise.all over server.close()
for every registered server; it resolves exactly when every release
resolves (so one failing release makes closeAll reject), and the registry
state is left completely unchanged, in particular the _servers list is
not emptied. -/
theorem closeAll_semantics (outcome : InstanceId → Except String Unit)
    (sl : ServerList) :
    (ServerList.closeAll outcome sl).2 = sl ∧
    ((ServerList.closeAll outcome sl).1 = .ok () ↔
      ∀ i ∈ sl.servers, outcome i = .ok ()) :=
  ⟨rfl, closeAll_ok_iff outcome sl⟩

/-- Concrete instantiation of closeAll_semantics at a one-server registry
with a succeeding release. -/
theorem closeAll_semantics_witness :
    (ServerList.closeAll (fun _ => .ok ()) { servers := [5], nextId := 6 }).2 =
      { servers := [5], nextId := 6 } ∧
    ((ServerList.closeAll (fun _ => .ok ())
        { servers := [5], nextId := 6 }).1 = .ok () ↔
      ∀ i ∈ ({ servers := [5], nextId := 6 } : ServerList).servers,
        (fun _ : InstanceId => (Except.ok () : Except String Unit)) i = .ok ()) :=
  closeAll_semantics (fun _ => .ok ()) { servers := [5], nextId := 6 }

/-- After any request, the sessions map binds the resolved key to the
instance the middleware returned. -/
theorem sessionMiddleware_binds_key (now : Nat) (headerValue : String)
    (st : HttpState) :
    mapGet (sessionMiddleware now headerValue st).2.sessions
        (resolveSessionKey headerValue) =
      some (sessionMiddleware now headerValue st).1 := by
  unfold sessionMiddleware
  cases hms : mapGet st.sessions (resolveSessionKey headerValue) with
  | none => simp [hms, mapGet_mapSet_self]
  | some s => simp [hms]

/-- A request whose key is already bound leaves the sessions map and the
ServerList untouched and returns the bound instance. -/
theorem sessionMiddleware_reuse (now : Nat) (headerValue : String)
    (st : HttpState) (i : InstanceId)
    (hms : mapGet st.sessions (resolveSessionKey headerValue) = some i) :
    (sessionMiddleware now headerValue st).1 = i ∧
    (sessionMiddleware now headerValue st).2.sessions = st.sessions ∧
    (sessionMiddleware now headerValue st).2.serverList = st.serverList := by
  unfold sessionMiddleware
  simp [hms]

/-- Claim C3: every request on a key replaces the pending eviction timer
of that key with a fresh one firing sessionTimeout (30 minutes) later;
a second request inside the window re-arms the timer past the naive
boundary of the first window while the session stays bound; and when the
timer fires with the session still bound, the instance is closed (removed
from _servers), the sessions entry is removed and the timer entry is
removed. -/
theorem http_idle_eviction (outcome : InstanceId → Except String Unit)
    (headerValue : String) (st : HttpState) (t0 t1 : Nat)
    (hU : KeysUnique st.sessions) (hT : KeysUnique st.sessionTimers)
    (hact : t0 < t1) :
    mapGet (sessionMiddleware t0 headerValue st).2.sessionTimers
        (resolveSessionKey headerValue) = some (t0 + sessionTimeout) ∧
    (t1 < t0 + sessionTimeout →
      mapGet (sessionMiddleware t1 headerValue
            (sessionMiddleware t0 headerValue st).2).2.sessionTimers
          (resolveSessionKey headerValue) = some (t1 + sessionTimeout) ∧
      t0 + sessionTimeout < t1 + sessionTimeout ∧
      mapGet (sessionMiddleware t1 headerValue
            (sessionMiddleware t0 headerValue st).2).2.sessions
          (resolveSessionKey headerValue) ≠ none) ∧
    (∀ k i, mapGet st.sessions k = some i →
      mapGet (sessionTimerFire outcome k st).sessions k = none ∧
      mapGet (sessionTimerFire outcome k st).sessionTimers k = none ∧
      (sessionTimerFire outcome k st).serverList.servers =
        st.serverList.servers.erase i) := by
  refine ⟨?_, ?_, ?_⟩
  · exact mapGet_mapSet_self st.sessionTimers (resolveSessionKey headerValue)
      (t0 + sessionTimeout)
  · intro _
    refine ⟨?_, Nat.add_lt_add_right hact sessionTimeout, ?_⟩
    · exact mapGet_mapSet_self _ (resolveSessionKey headerValue)
        (t1 + sessionTimeout)
    · have hb := sessionMiddleware_binds_key t0 headerValue st
      have hr := sessionMiddleware_reuse t1 headerValue
        (sessionMiddleware t0 headerValue st).2 _ hb
      rw [hr.2.1, hb]
      exact Option.some_ne_none _
  · intro k i hi
    unfold sessionTimerFire
    simp only [hi]
    exact ⟨mapGet_mapDelete_self st.sessions k hU,
      mapGet_mapDelete_self st.sessionTimers k hT, rfl⟩

/-- Concrete instantiation of http_idle_eviction: requests at instants 0
and 1 on key s against the example state, then the timer callback. -/
theorem http_idle_eviction_witness :
    mapGet (sessionMiddleware 0 "s" httpStateExample).2.sessionTimers "s" =
      some (0 + sessionTimeout) ∧
    (mapGet (sessionMiddleware 1 "s"
          (sessionMiddleware 0 "s" httpStateExample).2).2.sessionTimers "s" =
        some (1 + sessionTimeout) ∧
      0 + sessionTimeout < 1 + sessionTimeout ∧
      mapGet (sessionMiddleware 1 "s"
          (sessionMiddleware 0 "s" httpStateExample).2).2.sessions "s" ≠ none) ∧
    (mapGet (sessionTimerFire (fun _ => .ok ()) "s" httpStateExample).sessions
        "s" = none ∧
      mapGet (sessionTimerFire (fun _ => .ok ()) "s"
          httpStateExample).sessionTimers "s" = none ∧
      (sessionTimerFire (fun _ => .ok ()) "s"
          httpStateExample).serverList.servers =
        httpStateExample.serverList.servers.erase 3) := by
  have h := http_idle_eviction (fun _ => .ok ()) "s" httpStateExample 0 1
    (by unfold KeysUnique; decide) (by unfold KeysUnique; decide) (by decide)
  exact ⟨h.1, h.2.1 (by decide), h.2.2 "s" 3 rfl⟩

/-- Claim C4: the session key of a request is the Session-Id header value,
falling back to the constant default when the header is absent (Koa hands
the middleware the empty string in that case); a bound key is reused with
no change to the sessions map or the ServerList; an unbound key invokes
the factory, binds the fresh instance under the key and returns it. -/
theorem session_key_and_getOrCreate (now : Nat) (headerValue : String)
    (st : HttpState) :
    resolveSessionKey "" = "default" ∧
    (headerValue ≠ "" → resolveSessionKey headerValue = headerValue) ∧
    (∀ i, mapGet st.sessions (resolveSessionKey headerValue) = some i →
      (sessionMiddleware now headerValue st).1 = i ∧
      (sessionMiddleware now headerValue st).2.sessions = st.sessions ∧
      (sessionMiddleware now headerValue st).2.serverList = st.serverList) ∧
    (mapGet st.sessions (resolveSessionKey headerValue) = none →
      (sessionMiddleware now headerValue st).1 = st.serverList.nextId ∧
      (sessionMiddleware now headerValue st).2.sessions =
        mapSet st.sessions (resolveSessionKey headerValue)
          st.serverList.nextId ∧
      (sessionMiddleware now headerValue st).2.serverList.servers =
        st.serverList.servers ++ [st.serverList.nextId]) := by
  refine ⟨rfl, ?_, ?_, ?_⟩
  · intro h
    simp [resolveSessionKey, h]
  · intro i hi
    exact sessionMiddleware_reuse now headerValue st i hi
  · intro hms
    unfold sessionMiddleware
    simp [hms, ServerList.create]

/-- Concrete instantiation of session_key_and_getOrCreate: a request with
no Session-Id header against a fresh server creates instance 0 under the
default key. -/
theorem session_key_and_getOrCreate_witness :
    (sessionMiddleware 0 "" httpInit).1 = 0 ∧
    (sessionMiddleware 0 "" httpInit).2.sessions =
      mapSet httpInit.sessions "default" 0 ∧
    (sessionMiddleware 0 "" httpInit).2.serverList.servers =
      httpInit.serverList.servers ++ [0] := by
  have h := session_key_and_getOrCreate 0 "" httpInit
  exact h.2.2.2 rfl

/-- Claim C5: a POST to /tools/:toolName naming a tool that is not
registered on the session instance produces exactly one response: the 500
error envelope with success false and the error text
Tool "toolName" not found; the only state effect of the request is the
one the session middleware already performed. -/
theorem unknown_tool_error_envelope (tools : List RegisteredTool)
    (now : Nat) (headerValue : String) (toolName : String) (params : ToolArgs)
    (st : HttpState)
    (habsent : tools.find? (fun tool => tool.name == toolName) = none) :
    servePostTool tools now headerValue toolName params st =
      ({ status := 500, success := false, result := none,
         error := some ("Tool \"" ++ toolName ++ "\" not found") },
       (sessionMiddleware now headerValue st).2) := by
  unfold servePostTool postToolRoute callTool
  simp [habsent]

/-- Concrete instantiation of unknown_tool_error_envelope:
POST /tools/not_a_real_tool against a server whose only registered tool is
browser_navigate. -/
theorem unknown_tool_error_envelope_witness :
    servePostTool [browserNavigateTool] 0 "" "not_a_real_tool" [] httpInit =
      ({ status := 500, success := false, result := none,
         error := some "Tool \"not_a_real_tool\" not found" },
       (sessionMiddleware 0 "" httpInit).2) :=
  unknown_tool_error_envelope [browserNavigateTool] 0 "" "not_a_real_tool" []
    httpInit rfl

/-- Claim C6: ServerList.close removes the instance from the registry
list; a second close of the same instance leaves the registry exactly as
the first left it (a no-op on the registry), and it surfaces no error
whenever the underlying server release resolves. -/
theorem close_removes_and_is_idempotent
    (outcome : InstanceId → Except String Unit) (sl : ServerList)
    (server : InstanceId) (hnd : sl.servers.Nodup) :
    server ∉ (ServerList.close outcome sl server).2.servers ∧
    (ServerList.close outcome
        (ServerList.close outcome sl server).2 server).2 =
      (ServerList.close outcome sl server).2 ∧
    (outcome server = .ok () →
      (ServerList.close outcome
          (ServerList.close outcome sl server).2 server).1 = .ok ()) := by
  have hnotmem : server ∉ sl.servers.erase server := by
    intro hmem
    exact ((List.Nodup.mem_erase_iff hnd).mp hmem).1 rfl
  refine ⟨hnotmem, ?_, ?_⟩
  · show ({ sl with servers := (sl.servers.erase server).erase server }
        : ServerList) = { sl with servers := sl.servers.erase server }
    rw [List.erase_of_not_mem hnotmem]
  · intro h
    exact h

/-- Concrete instantiation of close_removes_and_is_idempotent: closing
instance 0 twice on the registry [0, 1] with a succeeding release. -/
theorem close_removes_and_is_idempotent_witness :
    0 ∉ (ServerList.close (fun _ => .ok ())
        { servers := [0, 1], nextId := 2 } 0).2.servers ∧
    (ServerList.close (fun _ => .ok ())
        (ServerList.close (fun _ => .ok ())
          { servers := [0, 1], nextId := 2 } 0).2 0).2 =
      (ServerList.close (fun _ => .ok ())
        { servers := [0, 1], nextId := 2 } 0).2 ∧
    (ServerList.close (fun _ => .ok ())
        (ServerList.close (fun _ => .ok ())
          { servers := [0, 1], nextId := 2 } 0).2 0).1 = .ok () := by
  have h := close_removes_and_is_idempotent (fun _ => .ok ())
    { servers := [0, 1], nextId := 2 } 0 (by decide)
  exact ⟨h.1, h.2.1, h.2.2 rfl⟩

/-- Claim C7: on the SSE adapter a POST referencing a sessionId with no
bound connection is answered 404 Session not found and changes nothing
(in particular it never creates a session); a GET is the only way a
session is created, binding the transport-generated id to a freshly
created instance; and the close listener of a connection removes the
binding and releases the bound instance from the ServerList. -/
theorem sse_session_lifecycle (outcome : InstanceId → Except String Unit)
    (freshSid sid : SessionKey) (server : InstanceId) (st : SSEState)
    (habsent : mapGet st.sessions sid = none) :
    sseHandleRequest freshSid (.post (some sid)) st =
      (.statusText 404 "Session not found", st) ∧
    (sseHandleRequest freshSid .get st).2.sessions =
      mapSet st.sessions freshSid st.serverList.nextId ∧
    (sseHandleRequest freshSid .get st).2.serverList.servers =
      st.serverList.servers ++ [st.serverList.nextId] ∧
    (∀ st2 : SSEState, KeysUnique st2.sessions →
      mapGet (sseHandleClose outcome sid server st2).sessions sid = none ∧
      (sseHandleClose outcome sid server st2).serverList.servers =
        st2.serverList.servers.erase server) := by
  refine ⟨?_, rfl, rfl, ?_⟩
  · unfold sseHandleRequest
    simp [habsent]
  · intro st2 hU2
    exact ⟨mapGet_mapDelete_self st2.sessions sid hU2, rfl⟩

/-- Concrete instantiation of sse_session_lifecycle: POST for the unbound
sessionId b against a state holding only session a, a GET accepting a
connection with fresh id c, and the close of session a. -/
theorem sse_session_lifecycle_witness :
    sseHandleRequest "c" (.post (some "b")) sseStateExample =
      (.statusText 404 "Session not found", sseStateExample) ∧
    (sseHandleRequest "c" .get sseStateExample).2.sessions =
      mapSet sseStateExample.sessions "c" 4 ∧
    (sseHandleRequest "c" .get sseStateExample).2.serverList.servers =
      [3, 4] ∧
    (mapGet (sseHandleClose (fun _ => .ok ()) "b" 3
        sseStateExample).sessions "b" = none ∧
      (sseHandleClose (fun _ => .ok ()) "b" 3
        sseStateExample).serverList.servers = []) := by
  have h := sse_session_lifecycle (fun _ => .ok ()) "c" "b" 3 sseStateExample
    rfl
  exact ⟨h.1, h.2.1, h.2.2.1,
    h.2.2.2 sseStateExample (by unfold KeysUnique; decide)⟩

/-- Claim C8 counterexample: serving GET /openapi.json is not free of
session effects: a request with no Session-Id header against a fresh
server passes the shared session middleware, which creates the default
session and arms its eviction timer, so the session registry and the
timer map both change. -/
theorem openapi_serving_not_stateless :
    (serveOpenapi ([] : List RegisteredTool) 0 "" httpInit).2.sessions ≠
      httpInit.sessions ∧
    (serveOpenapi ([] : List RegisteredTool) 0 "" httpInit).2.sessions =
      [("default", 0)] ∧
    (serveOpenapi ([] : List RegisteredTool) 0 "" httpInit).2.sessionTimers =
      [("default", sessionTimeout)] := by
  decide

/-- Claim C8 as amended: the openapi handler itself is a stateless
read-only projection: it leaves the whole HTTP state unchanged and its
listing depends only on the registered tool schemas; all session
semantics of a request to the discovery route come from the shared
session middleware, whose state change the full serve reproduces
exactly. -/
theorem openapi_handler_readonly (tools : List RegisteredTool) (now : Nat)
    (headerValue : String) (st st2 : HttpState) :
    (openapiRoute tools st).2 = st ∧
    (openapiRoute tools st).1 = (openapiRoute tools st2).1 ∧
    (serveOpenapi tools now headerValue st).2 =
      (sessionMiddleware now headerValue st).2 ∧
    (serveOpenapi tools now headerValue st).1 = tools.map buildPathItem :=
  ⟨rfl, rfl, rfl, rfl⟩

/-- Claim C9: the exit watchdog arms the force-exit timer at 15000
milliseconds before awaiting closeAll, which starts the release of every
live server and resolves exactly when all releases resolve; whatever the
graceful teardown does (including hanging forever), the process exits no
later than the bound; the handler is installed on SIGINT, SIGTERM and the
stdin close event; and the HTTP gracefulShutdown empties the sessions
map. -/
theorem shutdown_bounded_force_exit
    (outcome : InstanceId → Except String Unit) (sl : ServerList)
    (st : HttpState) :
    (handleExit outcome sl).forceExitAfterMs = 15000 ∧
    (handleExit outcome sl).closedServers = sl.servers ∧
    ((handleExit outcome sl).closeAllResult = .ok () ↔
      ∀ i ∈ sl.servers, outcome i = .ok ()) ∧
    (∀ g : Option Nat, exitTimeMs g ≤ forceExitTimeoutMs) ∧
    exitTimeMs none = forceExitTimeoutMs ∧
    "SIGINT" ∈ watchdogTriggers ∧
    "SIGTERM" ∈ watchdogTriggers ∧
    "stdin-close" ∈ watchdogTriggers ∧
    (gracefulShutdown outcome st).sessions = [] := by
  refine ⟨rfl, rfl, closeAll_ok_iff outcome sl, ?_, rfl, ?_, ?_, ?_, rfl⟩
  · intro g
    cases g with
    | none => exact Nat.le_refl _
    | some d => exact Nat.min_le_right d forceExitTimeoutMs
  · decide
  · decide
  · decide

/-- Concrete instantiation of shutdown_bounded_force_exit at a registry
holding instance 2 with a succeeding release. -/
theorem shutdown_bounded_force_exit_witness :
    (handleExit (fun _ => .ok ())
        { servers := [2], nextId := 3 }).forceExitAfterMs = 15000 ∧
    (handleExit (fun _ => .ok ())
        { servers := [2], nextId := 3 }).closedServers = [2] ∧
    ((handleExit (fun _ => .ok ())
        { servers := [2], nextId := 3 }).closeAllResult = .ok () ↔
      ∀ i ∈ ({ servers := [2], nextId := 3 } : ServerList).servers,
        (fun _ : InstanceId => (Except.ok () : Except String Unit)) i =
          .ok ()) ∧
    (∀ g : Option Nat, exitTimeMs g ≤ forceExitTimeoutMs) ∧
    exitTimeMs none = forceExitTimeoutMs ∧
    "SIGINT" ∈ watchdogTriggers ∧
    "SIGTERM" ∈ watchdogTriggers ∧
    "stdin-close" ∈ watchdogTriggers ∧
    (gracefulShutdown (fun _ => .ok ()) httpStateExample).sessions = [] :=
  shutdown_bounded_force_exit (fun _ => .ok ())
    { servers := [2], nextId := 3 } httpStateExample

/-- Claim C10: with no shared user data directory configured the profile
directory name carries the session key suffix exactly when the key is
present, non-empty and different from default; an absent, empty or
default key resolves to the shared base name, so the default HTTP
session and the stdio session (created with no key) share one on-disk
profile directory; a CLI-configured directory overrides everything. -/
theorem profile_dir_resolution (browserName dir cache s : String)
    (sid : Option String) (h1 : s ≠ "") (h2 : s ≠ "default") :
    profileDirName browserName (some s) =
      "mcp-" ++ browserName ++ "-profile-" ++ s ∧
    profileDirName browserName none = "mcp-" ++ browserName ++ "-profile" ∧
    profileDirName browserName (some "") =
      "mcp-" ++ browserName ++ "-profile" ∧
    profileDirName browserName (some "default") =
      "mcp-" ++ browserName ++ "-profile" ∧
    profileDirName browserName (some "default") =
      profileDirName browserName none ∧
    effectiveUserDataDir (some dir) cache browserName sid = dir ∧
    effectiveUserDataDir none cache browserName sid =
      cache ++ "/ms-playwright/" ++ profileDirName browserName sid := by
  refine ⟨?_, ?_, ?_, ?_, rfl, rfl, rfl⟩
  · show ("mcp-" ++ browserName ++ "-profile") ++
        (if s ≠ "" ∧ s ≠ "default" then "-" ++ s else "") =
      "mcp-" ++ browserName ++ "-profile-" ++ s
    rw [if_pos ⟨h1, h2⟩, ← String.append_assoc,
      String.append_assoc ("mcp-" ++ browserName) "-profile" "-"]
    exact congrArg (fun x => "mcp-" ++ browserName ++ x ++ s) rfl
  · show ("mcp-" ++ browserName ++ "-profile") ++ "" =
      "mcp-" ++ browserName ++ "-profile"
    exact String.append_empty _
  · show ("mcp-" ++ browserName ++ "-profile") ++ "" =
      "mcp-" ++ browserName ++ "-profile"
    exact String.append_empty _
  · show ("mcp-" ++ browserName ++ "-profile") ++ "" =
      "mcp-" ++ browserName ++ "-profile"
    exact String.append_empty _

/-- Concrete instantiation of profile_dir_resolution for chromium and the
session key team1. -/
theorem profile_dir_resolution_witness :
    profileDirName "chromium" (some "team1") = "mcp-chromium-profile-team1" ∧
    profileDirName "chromium" none = "mcp-chromium-profile" ∧
    profileDirName "chromium" (some "") = "mcp-chromium-profile" ∧
    profileDirName "chromium" (some "default") = "mcp-chromium-profile" ∧
    profileDirName "chromium" (some "default") =
      profileDirName "chromium" none ∧
    effectiveUserDataDir (some "/srv/data") "/home/u/.cache" "chromium"
      (some "team1") = "/srv/data" ∧
    effectiveUserDataDir none "/home/u/.cache" "chromium" (some "team1") =
      "/home/u/.cache" ++ "/ms-playwright/" ++
        profileDirName "chromium" (some "team1") :=
  profile_dir_resolution "chromium" "/srv/data" "/home/u/.cache" "team1"
    (some "team1") (by decide) (by decide)

end PlaywrightMcp
